import Mathlib

/-!
Verification of the form-handler module `foris/config_handlers/base.py`.

The module defines per-domain configuration handlers.  Each handler builds a
form and registers save-callbacks; a callback receives the validated data and
returns an action tag together with a payload (a Uci patch, a result
dictionary, or nothing).  The definitions below embed the data model
(Uci / Config / Section / Option / List patches) and each callback as a pure
Lean function over an explicit record of the submitted data; external
collaborators (password hashing, the configuration backend) are passed in as
explicit parameters.
-/

namespace Foris

/-- A python-level value stored in a Uci `Option` or a result dictionary:
a string, a boolean, an integer, or python `None`. -/
inductive UVal where
  | s (v : String)
  | b (v : Bool)
  | n (v : Nat)
  | pyNone
deriving DecidableEq, Repr

/-- One mutation inside a Uci section, mirroring `uci_raw`:
`section.add(Option(..))` is `setOpt`, `section.add_removal(Option(..))` is
`removeOpt`, `section.add_replace(List(..))` is `replaceList`,
`section.add_removal(List(..))` is `removeList` and `section.add(List(..))`
is `addList`.  List values are kept in insertion order. -/
inductive UciOp where
  | setOpt (name : String) (value : UVal)
  | removeOpt (name : String)
  | replaceList (name : String) (values : List String)
  | removeList (name : String)
  | addList (name : String) (values : List String)
deriving DecidableEq, Repr

/-- The option or list name an operation refers to. -/
def UciOp.opName : UciOp → String
  | .setOpt n _ => n
  | .removeOpt n => n
  | .replaceList n _ => n
  | .removeList n => n
  | .addList n _ => n

/-- Whether an operation is an option `set` (as opposed to a removal or a
list replace). -/
def UciOp.isSet : UciOp → Bool
  | .setOpt _ _ => true
  | _ => false

/-- A Uci section of a patch: `Section(name, type, anonymous)` plus its
operations in insertion order.  An anonymous section created as
`Section(None, ...)` has `sname = none`. -/
structure UciSection where
  sname : Option String
  stype : String
  anonymous : Bool
  ops : List UciOp
deriving DecidableEq, Repr

/-- A Uci config of a patch: `Config(name)` plus its sections in insertion
order. -/
structure UciConfig where
  cname : String
  sections : List UciSection
deriving DecidableEq, Repr

/-- A whole patch, `Uci()` with its configs in insertion order. -/
structure Uci where
  configs : List UciConfig
deriving DecidableEq, Repr

/-- First config of the given name, if any. -/
def Uci.findConfig (u : Uci) (n : String) : Option UciConfig :=
  u.configs.find? (fun c => c.cname == n)

/-- First section of the given name, if any. -/
def UciConfig.findSection (c : UciConfig) (n : String) : Option UciSection :=
  c.sections.find? (fun s => s.sname == some n)

/-- The result of one save-callback: `("edit_config", uci)`,
`("save_result", dict)` or `("none", None)`. -/
inductive CbResult where
  | editConfig (uci : Uci)
  | saveResult (payload : List (String × UVal))
  | noAction
deriving DecidableEq, Repr

/-- Whether a callback result carries a patch to submit. -/
def CbResult.isEdit : CbResult → Bool
  | .editConfig _ => true
  | _ => false

/-- Python truthiness of an optional string (`None` and `""` are falsy). -/
def pyTruthy : Option String → Bool
  | none => false
  | some s => !(s == "")

/-- String interpolation of an optional string, as python `"%s" % v` renders
`None`. -/
def optStr : Option String → String
  | none => "None"
  | some s => s

/-- Python `s.strip()`: ASCII whitespace dropped from both ends (computed
on the character list so that the kernel can evaluate it). -/
def pyStrip (s : String) : String :=
  ⟨((s.data.dropWhile Char.isWhitespace).reverse.dropWhile Char.isWhitespace).reverse⟩

/-- Python `s.startswith(p)`. -/
def pyStartsWith (s p : String) : Bool :=
  s.data.take p.data.length == p.data

/-- Python `s[n:]`. -/
def pyDrop (s : String) (n : Nat) : String := ⟨s.data.drop n⟩

/-- Helper of `pySplit`: consumes the remaining characters with the current
chunk accumulated in reverse. -/
def pySplitAux (sep : Char) : List Char → List Char → List String
  | [], acc => [⟨acc.reverse⟩]
  | c :: rest, acc =>
    if c == sep then ⟨acc.reverse⟩ :: pySplitAux sep rest []
    else pySplitAux sep rest (c :: acc)

/-- Python `s.split(sep)` for a one-character separator: keeps empty chunks
(`"".split(" ")` is `[""]`). -/
def pySplit (s : String) (sep : Char) : List String := pySplitAux sep s.data []

/-- `" ".join([a, b]).strip()` from `wan_form_cb`. -/
def joinStrip (a b : String) : String := pyStrip (a ++ " " ++ b)

/-! ## PasswordHandler -/

/-- Validated data of the password form: fields `old_password`, `password`,
`password_validation` (not read by the callback) and `set_system_pw`. -/
structure PwData where
  old_password : String
  password : String
  set_system_pw : Bool
deriving DecidableEq, Repr

/-- Modelled from the spec: the stored hash is read through
`uci_data.find_child("uci.foris.auth.password")`, a read of the external
configuration store (`get_config`), whose node type `uci_raw.Option` is not
part of this module.  `none` models an absent option; `some h` an option
whose value is `h`.  The python test `if password_hash:` guards the
old-password comparison; per the source comment (allow changing the password
if `password_hash` is empty) the check is skipped when the option is absent
or its value is the empty string. -/
def hashPresent : Option String → Bool
  | none => false
  | some h => !(h == "")

/-- The patch built by `pw_form_cb` on success: config `foris`, section
`auth` of type `config`, option `password` set to the new hash. -/
def pwPatch (newHash : String) : Uci :=
  ⟨[⟨"foris", [⟨some "auth", "config", false, [UciOp.setOpt "password" (UVal.s newHash)]⟩]⟩]⟩

/-- `pw_form_cb` of `PasswordHandler.get_form`.  `change` is the handler
mode; `storedHash` the value found at `uci.foris.auth.password`;
`cryptCheck w s` embeds the external `pbkdf2.crypt(w, salt=s)` and
`cryptNew w` the external `pbkdf2.crypt(w, iterations=1000)` (the hashing
library is an external collaborator, passed in as a parameter).  The call
`client.set_password("root", ...)` made when `set_system_pw` is true is an
external side effect and does not change the returned value. -/
def pw_form_cb (change : Bool) (storedHash : Option String)
    (cryptCheck : String → String → String) (cryptNew : String → String)
    (data : PwData) : CbResult :=
  if change && hashPresent storedHash &&
      !(cryptCheck data.old_password (storedHash.getD "") == storedHash.getD "") then
    CbResult.saveResult [("wrong_old_password", UVal.b true)]
  else
    CbResult.editConfig (pwPatch (cryptNew data.password))

/-! ## UpdaterHandler -/

/-- The package lists selected in the updater form: the keys of the
submitted data that start with `install_` and hold a true value, with the
`install_` head (8 characters) stripped, in iteration order.  The submitted
data is the ordered association list of (field name, checkbox value). -/
def selectedLists (data : List (String × Bool)) : List String :=
  (data.filter (fun kv => kv.2 && pyStartsWith kv.1 "install_")).map (fun kv => pyDrop kv.1 8)

/-- The patch skeleton of `package_lists_form_cb`: config `updater`,
section `pkglists` of type `pkglists`, holding one list operation. -/
def updaterPatch (op : UciOp) : Uci :=
  ⟨[⟨"updater", [⟨some "pkglists", "pkglists", false, [op]⟩]⟩]⟩

/-- `package_lists_form_cb` of `UpdaterHandler.get_form`: builds config
`updater`, section `pkglists`; when no `install_*` field is selected it
emits `add_removal` of the `lists` list, otherwise `add_replace` with the
selected names. -/
def package_lists_form_cb (data : List (String × Bool)) : CbResult :=
  let sel := selectedLists data
  CbResult.editConfig (updaterPatch
    (if sel.length = 0 then UciOp.removeList "lists" else UciOp.replaceList "lists" sel))

/-- `package_lists_run_updater_cb`: triggers the external
`client.check_updates()` and returns `("none", None)`. -/
def package_lists_run_updater_cb (_data : List (String × Bool)) : CbResult :=
  CbResult.noAction

/-! ## UcollectHandler -/

/-- `SERVICES_OPTIONS` keys of `UcollectHandler.get_form`. -/
def SERVICES_OPTIONS : List String := ["23tcp"]

/-- Validated data of the ucollect form. -/
structure UcollectData where
  services : List String
  log_credentials : Bool
deriving DecidableEq, Repr

/-- The deselected services of `ucollect_form_cb`: available services not in
the submitted `services` multi-checkbox. -/
def disabledServices (services : List String) : List String :=
  SERVICES_OPTIONS.filter (fun x => !(services.contains x))

/-- The patch skeleton of `ucollect_form_cb`: config `ucollect`, section
`fakes` of type `fakes`, holding the given operations. -/
def ucollectPatch (ops : List UciOp) : Uci :=
  ⟨[⟨"ucollect", [⟨some "fakes", "fakes", false, ops⟩]⟩]⟩

/-- `ucollect_form_cb` of `UcollectHandler.get_form`.  `fakesInConfig` is
whether `nuci_config.find_child("uci.ucollect.fakes")` found a section in
the fetched snapshot.  A non-empty deselection is emitted as `add_replace`
of the `disable` list; an empty one as `add_removal`, but only when the
`fakes` section already exists in the snapshot. -/
def ucollect_form_cb (fakesInConfig : Bool) (data : UcollectData) : CbResult :=
  let disabled := disabledServices data.services
  let listOps : List UciOp :=
    if disabled.length ≠ 0 then [UciOp.replaceList "disable" disabled]
    else if fakesInConfig then [UciOp.removeList "disable"] else []
  CbResult.editConfig
    (ucollectPatch (listOps ++ [UciOp.setOpt "log_credentials" (UVal.b data.log_credentials)]))

/-! ## WifiHandler -/

/-- Validated data of the wifi form.  `channel2g4`, `channel5g` and `hwmode`
are fields that exist only on some hardware, read with `data.get`. -/
structure WifiData where
  iface_section : String
  wifi_enabled : Bool
  ssid : String
  ssid_hidden : Bool
  key : String
  htmode : String
  channel2g4 : Option String
  channel5g : Option String
  hwmode : Option String
deriving DecidableEq, Repr

/-- The wifi channel chosen by `wifi_form_cb`: `channel2g4` if truthy, else
`channel5g` if truthy, else `"auto"`. -/
def wifiChannel (d : WifiData) : String :=
  if pyTruthy d.channel2g4 then d.channel2g4.getD ""
  else if pyTruthy d.channel5g then d.channel5g.getD ""
  else "auto"

/-- `wifi_form_cb` of `WifiHandler.get_form`: disables or configures both
the `wifi-iface` section (name from the hidden `iface_section` field) and
the `radio0` `wifi-device` section. -/
def wifi_form_cb (d : WifiData) : CbResult :=
  let ifaceOps : List UciOp :=
    [UciOp.setOpt "disabled" (UVal.b (!d.wifi_enabled))] ++
      (if d.wifi_enabled then
        [UciOp.setOpt "ssid" (UVal.s d.ssid),
         UciOp.setOpt "hidden" (UVal.b d.ssid_hidden),
         UciOp.setOpt "encryption" (UVal.s "psk2+tkip+aes"),
         UciOp.setOpt "key" (UVal.s d.key)]
      else [])
  let deviceOps : List UciOp :=
    [UciOp.setOpt "disabled" (UVal.b (!d.wifi_enabled))] ++
      (if d.wifi_enabled then
        (if pyTruthy d.hwmode then [UciOp.setOpt "hwmode" (UVal.s (d.hwmode.getD ""))] else []) ++
          [UciOp.setOpt "htmode" (UVal.s d.htmode),
           UciOp.setOpt "channel" (UVal.s (wifiChannel d))]
      else [])
  CbResult.editConfig
    ⟨[⟨"wireless",
       [⟨some d.iface_section, "wifi-iface", false, ifaceOps⟩,
        ⟨some "radio0", "wifi-device", false, deviceOps⟩]⟩]⟩

/-! ## WanHandler -/

/-- Validated data of the WAN form.  Fields the callback reads with
`data.get` (they may be hidden, hence absent) are `Option`-typed; the
others are read with `data[...]` inside the mode branch that guarantees
their presence. -/
structure WanData where
  proto : String
  custom_mac : Bool
  macaddr : String
  ipaddr : String
  netmask : String
  gateway : String
  dns1 : Option String
  dns2 : Option String
  static_ipv6 : Option Bool
  ip6addr : String
  ip6gw : String
  ip6pfx : String
  username : String
  password : String
  ppp_ipv6 : Bool
  smrt_vlan : Option String
  use_smrt : Option Bool
  smrt_vpi : Option String
  smrt_vci : Option String
deriving DecidableEq, Repr

/-- The operations `wan_form_cb` adds to the `wan` section for the selected
protocol: PPPoE credentials, or the static IPv4 options followed by the
joined-and-stripped `dns` string and the IPv6 options (set when
`static_ipv6` is submitted as true, removed otherwise); nothing for DHCP. -/
def wanProtoOps (d : WanData) : List UciOp :=
  if d.proto == "pppoe" then
    [UciOp.setOpt "username" (UVal.s d.username),
     UciOp.setOpt "password" (UVal.s d.password),
     UciOp.setOpt "ipv6" (UVal.b d.ppp_ipv6)]
  else if d.proto == "static" then
    [UciOp.setOpt "ipaddr" (UVal.s d.ipaddr),
     UciOp.setOpt "netmask" (UVal.s d.netmask),
     UciOp.setOpt "gateway" (UVal.s d.gateway),
     UciOp.setOpt "dns" (UVal.s (joinStrip (d.dns1.getD "") (d.dns2.getD "")))] ++
      (if d.static_ipv6 == some true then
        [UciOp.setOpt "ip6addr" (UVal.s d.ip6addr),
         UciOp.setOpt "ip6gw" (UVal.s d.ip6gw),
         UciOp.setOpt "ip6prefix" (UVal.s d.ip6pfx)]
      else
        [UciOp.removeOpt "ip6addr",
         UciOp.removeOpt "ip6gw",
         UciOp.removeOpt "ip6prefix"])
  else []

/-- The interface name ucollect should listen on: `pppoe-wan` for PPPoE,
`eth2` otherwise. -/
def wanUcollectIfname (d : WanData) : String :=
  if d.proto == "pppoe" then "pppoe-wan" else "eth2"

/-- The effective xDSL VLAN of `wan_form_cb`: when `use_smrt` is set and no
VLAN was submitted, the default `848` is used. -/
def smrtVlanEff (d : WanData) : Option String :=
  if d.use_smrt.getD false && !(pyTruthy d.smrt_vlan) then some "848" else d.smrt_vlan

/-- The WAN interface name written when the smrtd config is present:
`eth2`, suffixed with `.<vlan>` when `use_smrt` is set. -/
def wanIfname (d : WanData) : String :=
  if d.use_smrt.getD false then "eth2." ++ optStr (smrtVlanEff d) else "eth2"

/-- The sections of the `smrtd` config built by `wan_form_cb`: section
`eth2` (name option, plus the `connections` list added with the
`vlan vpi vci` value when both VPI and VCI are truthy, or removed when
`use_smrt` is set) and the `global` section with the `enabled` flag. -/
def smrtdSections (d : WanData) : List UciSection :=
  let connOps : List UciOp :=
    if pyTruthy d.smrt_vpi && pyTruthy d.smrt_vci then
      [UciOp.addList "connections"
        [optStr (smrtVlanEff d) ++ " " ++ optStr d.smrt_vpi ++ " " ++ optStr d.smrt_vci]]
    else if d.use_smrt.getD false then [UciOp.removeList "connections"] else []
  [⟨some "eth2", "interface", false, [UciOp.setOpt "name" (UVal.s "eth2")] ++ connOps⟩,
   ⟨some "global", "global", false, [UciOp.setOpt "enabled" (UVal.b (d.use_smrt.getD false))]⟩]

/-- The operations `wan_form_cb` accumulates in the `wan` section of config
`network`: the protocol, the custom MAC set or removed, the per-protocol
options, and (when the smrtd config is present) the interface name. -/
def wanOps (has_smrtd : Bool) (d : WanData) : List UciOp :=
  [UciOp.setOpt "proto" (UVal.s d.proto)] ++
    (if d.custom_mac then [UciOp.setOpt "macaddr" (UVal.s d.macaddr)]
     else [UciOp.removeOpt "macaddr"]) ++
    wanProtoOps d ++
    (if has_smrtd then [UciOp.setOpt "ifname" (UVal.s (wanIfname d))] else [])

/-- `wan_form_cb` of `WanHandler.get_form`.  `has_smrtd` is whether the
fetched snapshot holds a `uci.smrtd` config; `ucollectIface0` the name of
`uci.ucollect.@interface[0]` in the snapshot if present (the section is
re-created anonymously with that name, or with python `None` as name). -/
def wan_form_cb (has_smrtd : Bool) (ucollectIface0 : Option String)
    (d : WanData) : CbResult :=
  let network : UciConfig :=
    ⟨"network", [⟨some "wan", "interface", false, wanOps has_smrtd d⟩]⟩
  let ucollect : UciConfig :=
    ⟨"ucollect",
     [⟨ucollectIface0, "interface", true,
       [UciOp.setOpt "ifname" (UVal.s (wanUcollectIfname d))]⟩]⟩
  CbResult.editConfig
    ⟨[network] ++ (if has_smrtd then [⟨"smrtd", smrtdSections d⟩] else []) ++ [ucollect]⟩

/-! ## The remaining callbacks -/

/-- `dns_form_cb` of `DNSHandler.get_form`. -/
def dns_form_cb (forward_upstream : Bool) : CbResult :=
  CbResult.editConfig
    ⟨[⟨"unbound",
       [⟨some "server", "unbound", false,
         [UciOp.setOpt "forward_upstream" (UVal.b forward_upstream)]⟩]⟩]⟩

/-- `time_form_cb` of `TimeHandler.get_form`: calls the external
`client.set_time(data["time"])` and returns `("none", None)`. -/
def time_form_cb (_time : String) : CbResult :=
  CbResult.noAction

/-- Validated data of the LAN form. -/
structure LanData where
  lan_ipaddr : String
  dhcp_enabled : Bool
  dhcp_min : String
  dhcp_max : String
deriving DecidableEq, Repr

/-- `lan_form_cb` of `LanHandler.get_form`. -/
def lan_form_cb (d : LanData) : CbResult :=
  let dhcpOps : List UciOp :=
    [UciOp.replaceList "dhcp_option" ["6," ++ d.lan_ipaddr]] ++
      (if d.dhcp_enabled then
        [UciOp.setOpt "ignore" (UVal.s "0"),
         UciOp.setOpt "start" (UVal.s d.dhcp_min),
         UciOp.setOpt "limit" (UVal.s d.dhcp_max)]
      else [UciOp.setOpt "ignore" (UVal.s "1")])
  CbResult.editConfig
    ⟨[⟨"dhcp", [⟨some "lan", "dhcp", false, dhcpOps⟩]⟩,
      ⟨"network",
       [⟨some "lan", "interface", false,
         [UciOp.setOpt "ipaddr" (UVal.s d.lan_ipaddr)]⟩]⟩]⟩

/-- `system_pw_form_cb` of `SystemPasswordHandler.get_form`: calls the
external `client.set_password("root", data["password"])` and returns
`("none", None)`. -/
def system_pw_form_cb (_password : String) : CbResult :=
  CbResult.noAction

/-- `maintenance_form_cb` of `MaintenanceHandler.get_form`: calls the
external `client.load_config_backup` and wraps its result in a
`save_result` payload. -/
def maintenance_form_cb (backupResult : UVal) : CbResult :=
  CbResult.saveResult [("new_ip", backupResult)]

/-- Validated data of the notifications form.  The source field `to` is
named `recipients` here (`to` is reserved in Lean) and `from` is
`fromAddr`. -/
structure NotifData where
  enable_smtp : Bool
  use_turris_smtp : String
  recipients : String
  sender_name : String
  severity : Nat
  news : Bool
  server : String
  port : String
  username : String
  password : String
  security : String
  fromAddr : String
  reboot_time : String
  delay : String
deriving DecidableEq, Repr

/-- `notifications_form_cb` of `NotificationsHandler.get_form`. -/
def notifications_form_cb (d : NotifData) : CbResult :=
  let smtpOps : List UciOp :=
    [UciOp.setOpt "enable" (UVal.b d.enable_smtp)] ++
      (if d.enable_smtp then
        [UciOp.setOpt "use_turris_smtp" (UVal.s d.use_turris_smtp)] ++
          (if d.use_turris_smtp == "0" then
            [UciOp.setOpt "server" (UVal.s d.server),
             UciOp.setOpt "port" (UVal.s d.port),
             UciOp.setOpt "username" (UVal.s d.username),
             UciOp.setOpt "password" (UVal.s d.password),
             UciOp.setOpt "security" (UVal.s d.security),
             UciOp.setOpt "from" (UVal.s d.fromAddr)]
          else [UciOp.setOpt "sender_name" (UVal.s d.sender_name)]) ++
          [UciOp.replaceList "to" ((pySplit d.recipients ' ').filter (fun x => !(x == "")))]
      else [])
  let sections : List UciSection :=
    [⟨some "smtp", "smtp", false, smtpOps⟩,
     ⟨some "reboot", "reboot", false,
       [UciOp.setOpt "time" (UVal.s d.reboot_time),
        UciOp.setOpt "delay" (UVal.s d.delay)]⟩] ++
      (if d.enable_smtp then
        [⟨some "notifications", "notifications", false,
          [UciOp.setOpt "severity" (UVal.n d.severity),
           UciOp.setOpt "news" (UVal.b d.news)]⟩]
      else [])
  CbResult.editConfig ⟨[⟨"user_notify", sections⟩]⟩

/-! ## The form and `BaseConfigHandler.save` -/

/-- Modelled from the spec: `fapi.ForisForm` (module `foris.fapi`, not part
of this file set).  Per the spec a form holds the submitted input, an
ordered list of registered save-callbacks and a post-validation `valid`
flag; validation is a pure function of the submitted data, and `form.save`
invokes the callbacks in registration order.  `δ` is the type of the
validated data handed to the callbacks. -/
structure ForisForm (δ : Type) where
  data : δ
  callbacks : List (δ → CbResult)
  validator : δ → Bool

/-- Modelled from the spec: the `valid` flag computed by `form.validate()`. -/
def ForisForm.valid {δ : Type} (f : ForisForm δ) : Bool := f.validator f.data

/-- Modelled from the spec: `form.add_callback`, appending to the ordered
callback list. -/
def ForisForm.add_callback {δ : Type} (f : ForisForm δ) (cb : δ → CbResult) :
    ForisForm δ :=
  ⟨f.data, f.callbacks ++ [cb], f.validator⟩

/-- Modelled from the spec: `form.save()` runs the registered callbacks in
registration order on the validated data, collecting their results. -/
def ForisForm.saveForm {δ : Type} (f : ForisForm δ) : List CbResult :=
  f.callbacks.map (fun cb => cb f.data)

/-- `BaseConfigHandler.save(extra_callbacks)`: validates the form, appends
the extra callbacks, and either runs `form.save()` and returns `True`, or
returns `False` without invoking anything.  The second component is the
trace of callback invocations (empty when nothing ran). -/
def BaseConfigHandler.save {δ : Type} (f : ForisForm δ)
    (extra_callbacks : List (δ → CbResult)) : Bool × List CbResult :=
  let f2 := extra_callbacks.foldl ForisForm.add_callback f
  if f2.valid then (true, f2.saveForm) else (false, [])

/-! ## Sections and callbacks registered by each `get_form` -/

/-- Names passed to `add_section` in `PasswordHandler.get_form`, in order. -/
def password_form_sections : List String := ["set_password"]

/-- Names passed to `add_section` in `WanHandler.get_form`, in order. -/
def wan_form_sections : List String := ["set_wan"]

/-- Names passed to `add_section` in `DNSHandler.get_form`, in order. -/
def dns_form_sections : List String := ["set_dns"]

/-- Names passed to `add_section` in `TimeHandler.get_form`, in order. -/
def time_form_sections : List String := ["set_time"]

/-- Names passed to `add_section` in `LanHandler.get_form`, in order. -/
def lan_form_sections : List String := ["set_lan"]

/-- Names passed to `add_section` in `WifiHandler.get_form`, in order
(when it returns a form at all). -/
def wifi_form_sections : List String := ["set_wifi"]

/-- Names passed to `add_section` in `SystemPasswordHandler.get_form`. -/
def system_password_form_sections : List String := ["set_password"]

/-- Names passed to `add_section` in `MaintenanceHandler.get_form`. -/
def maintenance_form_sections : List String := ["restore_backup"]

/-- Names passed to `add_section` in `NotificationsHandler.get_form`, in
order: the `notifications`, `smtp` and `reboot` sections. -/
def notifications_form_sections : List String := ["notifications", "smtp", "reboot"]

/-- Names passed to `add_section` in `UpdaterHandler.get_form`. -/
def updater_form_sections : List String := ["select_package_lists"]

/-- Names passed to `add_section` in `UcollectHandler.get_form`. -/
def ucollect_form_sections : List String := ["fakes"]

/-- Callbacks registered by `PasswordHandler.get_form`, in order. -/
def password_handler_callbacks (change : Bool) (storedHash : Option String)
    (cryptCheck : String → String → String) (cryptNew : String → String) :
    List (PwData → CbResult) :=
  [pw_form_cb change storedHash cryptCheck cryptNew]

/-- Callbacks registered by `WanHandler.get_form`, in order. -/
def wan_handler_callbacks (has_smrtd : Bool) (ucollectIface0 : Option String) :
    List (WanData → CbResult) :=
  [wan_form_cb has_smrtd ucollectIface0]

/-- Callbacks registered by `DNSHandler.get_form`, in order. -/
def dns_handler_callbacks : List (Bool → CbResult) := [dns_form_cb]

/-- Callbacks registered by `TimeHandler.get_form`, in order. -/
def time_handler_callbacks : List (String → CbResult) := [time_form_cb]

/-- Callbacks registered by `LanHandler.get_form`, in order. -/
def lan_handler_callbacks : List (LanData → CbResult) := [lan_form_cb]

/-- Callbacks registered by `WifiHandler.get_form`, in order. -/
def wifi_handler_callbacks : List (WifiData → CbResult) := [wifi_form_cb]

/-- Callbacks registered by `SystemPasswordHandler.get_form`, in order. -/
def system_password_handler_callbacks : List (String → CbResult) :=
  [system_pw_form_cb]

/-- Callbacks registered by `MaintenanceHandler.get_form`, in order (the
backup-restore result is the external call's return value). -/
def maintenance_handler_callbacks : List (UVal → CbResult) :=
  [maintenance_form_cb]

/-- Callbacks registered by `NotificationsHandler.get_form`, in order. -/
def notifications_handler_callbacks : List (NotifData → CbResult) :=
  [notifications_form_cb]

/-- Callbacks registered by `UpdaterHandler.get_form`, in order: the patch
builder first, then the update-check trigger. -/
def updater_handler_callbacks : List (List (String × Bool) → CbResult) :=
  [package_lists_form_cb, package_lists_run_updater_cb]

/-- Callbacks registered by `UcollectHandler.get_form`, in order. -/
def ucollect_handler_callbacks (fakesInConfig : Bool) :
    List (UcollectData → CbResult) :=
  [ucollect_form_cb fakesInConfig]

/-- Invoke a callback list on validated data, in order. -/
def runCallbacks {δ : Type} (cbs : List (δ → CbResult)) (d : δ) : List CbResult :=
  cbs.map (fun cb => cb d)

/-- How many results of a callback run carry an `edit_config` patch. -/
def countEdit (rs : List CbResult) : Nat := (rs.filter CbResult.isEdit).length

/-- `WifiHandler.get_form`: reads the wireless-card stats from the backend
and returns `None` when fewer than one card is present; otherwise it builds
the wifi form (its `add_section` names and registered callbacks). -/
def WifiHandler.get_form (wirelessCards : Nat) :
    Option (List String × List (WifiData → CbResult)) :=
  if wirelessCards < 1 then none
  else some (wifi_form_sections, wifi_handler_callbacks)

/-! ## Concrete data used by the witnesses -/

/-- The spec scenario for the WAN handler: static protocol, the three IPv4
addresses given, no DNS servers, no static IPv6. -/
def wanDataStatic : WanData :=
  ⟨"static", false, "", "192.0.2.1", "255.255.255.0", "192.0.2.254",
   none, none, some false, "", "", "", "", "", false, none, none, none, none⟩

/-- A wifi submission with `wifi_enabled` unchecked. -/
def wifiDataDisabled : WifiData :=
  ⟨"cfg035579", false, "MyNet", false, "secretkey", "HT20", some "auto", none, none⟩

/-- A form used by the witness of the save contract: one registered
callback, validation accepting exactly a true data flag. -/
def sampleForm : ForisForm Bool :=
  ⟨true, [fun b => dns_form_cb b], fun b => b⟩

/-- The same form with the data flag flipped, so validation fails. -/
def sampleFormInvalid : ForisForm Bool :=
  ⟨false, [fun b => dns_form_cb b], fun b => b⟩

/-! ## Theorems -/

/-- Folding `add_callback` appends the callbacks in order and changes
nothing else of the form. -/
theorem foldl_add_callback {δ : Type} (f : ForisForm δ)
    (extra : List (δ → CbResult)) :
    extra.foldl ForisForm.add_callback f = ⟨f.data, f.callbacks ++ extra, f.validator⟩ := by
  induction extra generalizing f with
  | nil => cases f; simp
  | cons c cs ih => simp [List.foldl, ForisForm.add_callback, ih]

/-- Claim C1: `BaseConfigHandler.save` invokes the registered callbacks
(through `form.save`) only when validation succeeded.  When the form is
valid it returns `True` and the invocation trace is exactly the callbacks
(registered ones first, then the extra ones) applied in order to the
validated data; when the form is invalid it returns `False` and the trace
is empty. -/
theorem save_runs_callbacks_iff_valid {δ : Type} (f : ForisForm δ)
    (extra_callbacks : List (δ → CbResult)) :
    (f.valid = true →
      BaseConfigHandler.save f extra_callbacks =
        (true, (f.callbacks ++ extra_callbacks).map (fun cb => cb f.data))) ∧
    (f.valid = false →
      BaseConfigHandler.save f extra_callbacks = (false, [])) := by
  have hfold := foldl_add_callback f extra_callbacks
  constructor <;> intro h <;>
    simp only [ForisForm.valid] at h <;>
    simp [BaseConfigHandler.save, hfold, ForisForm.valid, ForisForm.saveForm, h]

/-- Witness for C1: on a concrete valid form the callback runs and `save`
returns `True`; on a concrete invalid form nothing runs and it returns
`False`. -/
theorem save_runs_callbacks_iff_valid_witness :
    BaseConfigHandler.save sampleForm [] =
      (true, (sampleForm.callbacks ++ []).map (fun cb : Bool → CbResult => cb sampleForm.data)) ∧
    BaseConfigHandler.save sampleFormInvalid [] = (false, []) :=
  ⟨(save_runs_callbacks_iff_valid sampleForm []).1 rfl,
   (save_runs_callbacks_iff_valid sampleFormInvalid []).2 rfl⟩

/-- Claim C2: the updater callback re-derives the `lists` membership from
the checked `install_*` fields; a non-empty selection is emitted as a
full-list replace of `uci.updater.pkglists.lists` with exactly the selected
names, an empty one as a removal of the list, and no option `set` is ever
emitted. -/
theorem package_lists_replace_or_remove (data : List (String × Bool)) :
    (selectedLists data ≠ [] →
      package_lists_form_cb data =
        CbResult.editConfig (updaterPatch (UciOp.replaceList "lists" (selectedLists data)))) ∧
    (selectedLists data = [] →
      package_lists_form_cb data =
        CbResult.editConfig (updaterPatch (UciOp.removeList "lists"))) ∧
    (∀ u, package_lists_form_cb data = CbResult.editConfig u →
      ∀ c ∈ u.configs, ∀ s ∈ c.sections, ∀ op ∈ s.ops, op.isSet = false) := by
  refine ⟨?_, ?_, ?_⟩
  · intro h
    have hl : ¬((selectedLists data).length = 0) := by
      simpa [List.length_eq_zero] using h
    simp [package_lists_form_cb, hl]
  · intro h
    simp [package_lists_form_cb, h]
  · intro u hu c hc s hs op hop
    by_cases hl : (selectedLists data).length = 0 <;>
      simp [package_lists_form_cb, hl] at hu <;>
      subst hu <;>
      simp_all [updaterPatch, UciOp.isSet]

/-- Witness for C2: one checked `install_nas` field yields a replace with
`["nas"]`; an all-unchecked submission yields a removal. -/
theorem package_lists_replace_or_remove_witness :
    package_lists_form_cb [("install_nas", true)] =
      CbResult.editConfig
        (updaterPatch (UciOp.replaceList "lists" (selectedLists [("install_nas", true)]))) ∧
    package_lists_form_cb [("install_nas", false)] =
      CbResult.editConfig (updaterPatch (UciOp.removeList "lists")) :=
  ⟨(package_lists_replace_or_remove [("install_nas", true)]).1 (by decide),
   (package_lists_replace_or_remove [("install_nas", false)]).2.1 (by decide)⟩

/-- Claim C3: in change mode with a non-empty stored hash, a mismatching
old password makes `pw_form_cb` return the `wrong_old_password` save
result and no patch, while a matching old password makes it return an
`edit_config` patch setting option `password` of section `auth` of config
`foris` to the new password hash. -/
theorem pw_change_old_password_check (storedH : String) (hne : storedH ≠ "")
    (cryptCheck : String → String → String) (cryptNew : String → String)
    (d : PwData) :
    (cryptCheck d.old_password storedH ≠ storedH →
      pw_form_cb true (some storedH) cryptCheck cryptNew d =
          CbResult.saveResult [("wrong_old_password", UVal.b true)] ∧
        ∀ u, pw_form_cb true (some storedH) cryptCheck cryptNew d ≠ CbResult.editConfig u) ∧
    (cryptCheck d.old_password storedH = storedH →
      pw_form_cb true (some storedH) cryptCheck cryptNew d =
        CbResult.editConfig (pwPatch (cryptNew d.password))) := by
  have hp : hashPresent (some storedH) = true := by
    simp [hashPresent, hne]
  constructor
  · intro h
    have hb : (cryptCheck d.old_password storedH == storedH) = false := by
      simp [h]
    refine ⟨?_, ?_⟩
    · simp [pw_form_cb, hp, hb]
    · intro u
      simp [pw_form_cb, hp, hb]
  · intro h
    have hb : (cryptCheck d.old_password storedH == storedH) = true := by
      simp [h]
    simp [pw_form_cb, hp, hb]

/-- Witness for C3: with stored hash `stored`, a hash function that never
matches triggers `wrong_old_password`, and one that always matches yields
the patch with the new hash. -/
theorem pw_change_old_password_check_witness :
    pw_form_cb true (some "stored") (fun _ _ => "") (fun w => w)
        ⟨"old", "new", false⟩ =
      CbResult.saveResult [("wrong_old_password", UVal.b true)] ∧
    pw_form_cb true (some "stored") (fun _ s => s) (fun w => w)
        ⟨"old", "new", false⟩ =
      CbResult.editConfig (pwPatch "new") :=
  ⟨((pw_change_old_password_check "stored" (by decide) (fun _ _ => "") (fun w => w)
      ⟨"old", "new", false⟩).1 (by decide)).1,
   (pw_change_old_password_check "stored" (by decide) (fun _ s => s) (fun w => w)
      ⟨"old", "new", false⟩).2 rfl⟩

/-- Claim C9: in change mode, when the stored hash is absent or empty the
old-password check is skipped and `pw_form_cb` returns the `edit_config`
patch with the new hash, whatever `old_password` was submitted. -/
theorem pw_change_empty_hash_skips_check (storedHash : Option String)
    (h : hashPresent storedHash = false)
    (cryptCheck : String → String → String) (cryptNew : String → String)
    (d : PwData) :
    pw_form_cb true storedHash cryptCheck cryptNew d =
      CbResult.editConfig (pwPatch (cryptNew d.password)) := by
  simp [pw_form_cb, h]

/-- Witness for C9: an empty stored hash together with a hash function that
never matches the submitted old password still yields the patch. -/
theorem pw_change_empty_hash_skips_check_witness :
    hashPresent (some "") = false ∧
    pw_form_cb true (some "") (fun _ _ => "X") (fun w => w)
        ⟨"whatever", "new", false⟩ =
      CbResult.editConfig (pwPatch "new") :=
  ⟨by decide,
   pw_change_empty_hash_skips_check (some "") (by decide) (fun _ _ => "X")
     (fun w => w) ⟨"whatever", "new", false⟩⟩

/-- Claim C4: for a static-protocol submission without DNS servers and with
`static_ipv6` false, the patch sets `proto`, `ipaddr`, `netmask` and
`gateway` to the submitted values in the `wan` section of config `network`,
sets `dns` to the empty string (the two dns fields joined with a space and
stripped), and removes `ip6addr`, `ip6gw` and `ip6prefix`. -/
theorem wan_static_without_dns (has_smrtd : Bool) (ucollectIface0 : Option String)
    (d : WanData) (hp : d.proto = "static") (h6 : d.static_ipv6 = some false)
    (h1 : d.dns1.getD "" = "") (h2 : d.dns2.getD "" = "") :
    ∃ u, wan_form_cb has_smrtd ucollectIface0 d = CbResult.editConfig u ∧
      ∃ c, u.findConfig "network" = some c ∧
        ∃ s, c.findSection "wan" = some s ∧
          UciOp.setOpt "proto" (UVal.s d.proto) ∈ s.ops ∧
          UciOp.setOpt "ipaddr" (UVal.s d.ipaddr) ∈ s.ops ∧
          UciOp.setOpt "netmask" (UVal.s d.netmask) ∈ s.ops ∧
          UciOp.setOpt "gateway" (UVal.s d.gateway) ∈ s.ops ∧
          UciOp.setOpt "dns" (UVal.s "") ∈ s.ops ∧
          UciOp.removeOpt "ip6addr" ∈ s.ops ∧
          UciOp.removeOpt "ip6gw" ∈ s.ops ∧
          UciOp.removeOpt "ip6prefix" ∈ s.ops := by
  have hdns : joinStrip (d.dns1.getD "") (d.dns2.getD "") = "" := by
    rw [h1, h2]; decide
  refine ⟨_, rfl, ⟨"network", [⟨some "wan", "interface", false, wanOps has_smrtd d⟩]⟩,
    ?_, ⟨some "wan", "interface", false, wanOps has_smrtd d⟩, ?_, ?_⟩
  · simp [wan_form_cb, Uci.findConfig]
  · simp [UciConfig.findSection]
  · simp [wanOps, wanProtoOps, hp, h6, hdns]

/-- Witness for C4: the spec scenario (`192.0.2.1`, `255.255.255.0`,
`192.0.2.254`, no dns, no static IPv6) run through the callback. -/
theorem wan_static_without_dns_witness :
    ∃ u, wan_form_cb false none wanDataStatic = CbResult.editConfig u ∧
      ∃ c, u.findConfig "network" = some c ∧
        ∃ s, c.findSection "wan" = some s ∧
          UciOp.setOpt "proto" (UVal.s "static") ∈ s.ops ∧
          UciOp.setOpt "ipaddr" (UVal.s "192.0.2.1") ∈ s.ops ∧
          UciOp.setOpt "netmask" (UVal.s "255.255.255.0") ∈ s.ops ∧
          UciOp.setOpt "gateway" (UVal.s "192.0.2.254") ∈ s.ops ∧
          UciOp.setOpt "dns" (UVal.s "") ∈ s.ops ∧
          UciOp.removeOpt "ip6addr" ∈ s.ops ∧
          UciOp.removeOpt "ip6gw" ∈ s.ops ∧
          UciOp.removeOpt "ip6prefix" ∈ s.ops :=
  wan_static_without_dns false none wanDataStatic rfl rfl rfl rfl

/-- Claim C5: with `wifi_enabled` false the patch sets `disabled` to true in
both the `wifi-iface` section and the `radio0` `wifi-device` section, and
no section of the patch carries an `ssid`, `hidden`, `encryption`, `key`,
`hwmode`, `htmode` or `channel` option. -/
theorem wifi_disabled_patch (d : WifiData) (h : d.wifi_enabled = false) :
    wifi_form_cb d = CbResult.editConfig
      ⟨[⟨"wireless",
         [⟨some d.iface_section, "wifi-iface", false,
           [UciOp.setOpt "disabled" (UVal.b true)]⟩,
          ⟨some "radio0", "wifi-device", false,
           [UciOp.setOpt "disabled" (UVal.b true)]⟩]⟩]⟩ ∧
    (∀ u, wifi_form_cb d = CbResult.editConfig u →
      ∀ c ∈ u.configs, ∀ s ∈ c.sections, ∀ op ∈ s.ops,
        op.opName ∉
          (["ssid", "hidden", "encryption", "key", "hwmode", "htmode", "channel"] :
            List String)) := by
  constructor
  · simp [wifi_form_cb, h]
  · intro u hu c hc s hs op hop
    simp [wifi_form_cb, h] at hu
    subst hu
    simp at hc
    subst hc
    simp at hs
    rcases hs with hs | hs <;> subst hs <;> simp at hop <;> subst hop <;>
      simp [UciOp.opName]

/-- Witness for C5: a concrete disabled submission. -/
theorem wifi_disabled_patch_witness :
    wifi_form_cb wifiDataDisabled = CbResult.editConfig
      ⟨[⟨"wireless",
         [⟨some "cfg035579", "wifi-iface", false,
           [UciOp.setOpt "disabled" (UVal.b true)]⟩,
          ⟨some "radio0", "wifi-device", false,
           [UciOp.setOpt "disabled" (UVal.b true)]⟩]⟩]⟩ :=
  (wifi_disabled_patch wifiDataDisabled rfl).1

/-- Claim C6: when every available service is selected and the snapshot
holds a `uci.ucollect.fakes` section, the patch removes the `disable` list
(and sets no `disable` option); when at least one service is deselected the
patch replaces the `disable` list with the deselected names. -/
theorem ucollect_disable_remove_or_replace (fakesInConfig : Bool) (d : UcollectData) :
    ((∀ s ∈ SERVICES_OPTIONS, s ∈ d.services) → fakesInConfig = true →
      ucollect_form_cb fakesInConfig d =
          CbResult.editConfig (ucollectPatch
            [UciOp.removeList "disable",
             UciOp.setOpt "log_credentials" (UVal.b d.log_credentials)]) ∧
        ∀ v, UciOp.setOpt "disable" v ∉
          ([UciOp.removeList "disable",
            UciOp.setOpt "log_credentials" (UVal.b d.log_credentials)] : List UciOp)) ∧
    (disabledServices d.services ≠ [] →
      ucollect_form_cb fakesInConfig d =
        CbResult.editConfig (ucollectPatch
          [UciOp.replaceList "disable" (disabledServices d.services),
           UciOp.setOpt "log_credentials" (UVal.b d.log_credentials)])) := by
  constructor
  · intro hall hf
    have hz : disabledServices d.services = [] := by
      have h23 : "23tcp" ∈ d.services := hall "23tcp" (by simp [SERVICES_OPTIONS])
      simp [disabledServices, SERVICES_OPTIONS, h23]
    subst hf
    refine ⟨by simp [ucollect_form_cb, hz], ?_⟩
    intro v
    simp
  · intro hne
    have hl : ¬((disabledServices d.services).length = 0) := by
      simpa [List.length_eq_zero] using hne
    simp [ucollect_form_cb, hl]

/-- Witness for C6: selecting the only service `23tcp` with the `fakes`
section present removes the list; deselecting it replaces the list with
`["23tcp"]`. -/
theorem ucollect_disable_remove_or_replace_witness :
    (ucollect_form_cb true ⟨["23tcp"], false⟩ =
      CbResult.editConfig (ucollectPatch
        [UciOp.removeList "disable",
         UciOp.setOpt "log_credentials" (UVal.b false)])) ∧
    (ucollect_form_cb true ⟨[], true⟩ =
      CbResult.editConfig (ucollectPatch
        [UciOp.replaceList "disable" (disabledServices []),
         UciOp.setOpt "log_credentials" (UVal.b true)])) :=
  ⟨((ucollect_disable_remove_or_replace true ⟨["23tcp"], false⟩).1
      (by decide) rfl).1,
   (ucollect_disable_remove_or_replace true ⟨[], true⟩).2 (by decide)⟩

/-- Claim C7 counterexample: `NotificationsHandler.get_form` calls
`add_section` three times (`notifications`, `smtp`, `reboot`), so its form
does not consist of exactly one section. -/
theorem notifications_not_single_section :
    notifications_form_sections.length = 3 ∧
      ¬(notifications_form_sections.length = 1) := by
  decide

/-- Claim C7 (amended): every handler's `get_form` adds exactly one section,
except `NotificationsHandler.get_form`, which adds the three sections
`notifications`, `smtp` and `reboot` (and `WifiHandler.get_form`, which may
return no form at all). -/
theorem handler_section_counts :
    password_form_sections.length = 1 ∧
      wan_form_sections.length = 1 ∧
      dns_form_sections.length = 1 ∧
      time_form_sections.length = 1 ∧
      lan_form_sections.length = 1 ∧
      wifi_form_sections.length = 1 ∧
      system_password_form_sections.length = 1 ∧
      maintenance_form_sections.length = 1 ∧
      updater_form_sections.length = 1 ∧
      ucollect_form_sections.length = 1 ∧
      notifications_form_sections = ["notifications", "smtp", "reboot"] := by
  decide

/-- A run of one callback submits at most one patch. -/
theorem countEdit_single (r : CbResult) : countEdit [r] ≤ 1 := by
  cases r <;> simp [countEdit, CbResult.isEdit]

/-- A run of one callback followed by a `none` result submits at most one
patch. -/
theorem countEdit_pair_noAction (r : CbResult) :
    countEdit [r, CbResult.noAction] ≤ 1 := by
  cases r <;> simp [countEdit, CbResult.isEdit]

/-- Claim C8: for every handler and every validated input, at most one of
the registered callbacks returns an `edit_config` action; in particular the
updater's second callback returns `none` after the first produced the
single patch. -/
theorem at_most_one_edit_config_per_handler :
    (∀ change storedHash cryptCheck cryptNew (d : PwData),
      countEdit (runCallbacks
        (password_handler_callbacks change storedHash cryptCheck cryptNew) d) ≤ 1) ∧
    (∀ has_smrtd ucollectIface0 (d : WanData),
      countEdit (runCallbacks (wan_handler_callbacks has_smrtd ucollectIface0) d) ≤ 1) ∧
    (∀ b : Bool, countEdit (runCallbacks dns_handler_callbacks b) ≤ 1) ∧
    (∀ t : String, countEdit (runCallbacks time_handler_callbacks t) ≤ 1) ∧
    (∀ d : LanData, countEdit (runCallbacks lan_handler_callbacks d) ≤ 1) ∧
    (∀ d : WifiData, countEdit (runCallbacks wifi_handler_callbacks d) ≤ 1) ∧
    (∀ p : String, countEdit (runCallbacks system_password_handler_callbacks p) ≤ 1) ∧
    (∀ v : UVal, countEdit (runCallbacks maintenance_handler_callbacks v) ≤ 1) ∧
    (∀ d : NotifData, countEdit (runCallbacks notifications_handler_callbacks d) ≤ 1) ∧
    (∀ data : List (String × Bool),
      countEdit (runCallbacks updater_handler_callbacks data) ≤ 1) ∧
    (∀ fakesInConfig (d : UcollectData),
      countEdit (runCallbacks (ucollect_handler_callbacks fakesInConfig) d) ≤ 1) := by
  refine ⟨?_, ?_, ?_, ?_, ?_, ?_, ?_, ?_, ?_, ?_, ?_⟩
  · intro change storedHash cryptCheck cryptNew d
    exact countEdit_single _
  · intro has_smrtd ucollectIface0 d
    exact countEdit_single _
  · intro b
    exact countEdit_single _
  · intro t
    exact countEdit_single _
  · intro d
    exact countEdit_single _
  · intro d
    exact countEdit_single _
  · intro p
    exact countEdit_single _
  · intro v
    exact countEdit_single _
  · intro d
    exact countEdit_single _
  · intro data
    exact countEdit_pair_noAction (package_lists_form_cb data)
  · intro fakesInConfig d
    exact countEdit_single _

/-- Claim C10: `WifiHandler.get_form` returns `None` whenever the stats
report fewer than one wireless card, and builds the wifi form (its section
and registered callback) whenever at least one card is present. -/
theorem wifi_get_form_card_gate (wirelessCards : Nat) :
    (wirelessCards < 1 → WifiHandler.get_form wirelessCards = none) ∧
    (1 ≤ wirelessCards →
      WifiHandler.get_form wirelessCards =
        some (wifi_form_sections, wifi_handler_callbacks)) := by
  constructor
  · intro h
    simp [WifiHandler.get_form, h]
  · intro h
    have hn : ¬(wirelessCards < 1) := by omega
    simp [WifiHandler.get_form, hn]

/-- Witness for C10: zero cards yield no form; one card yields the form. -/
theorem wifi_get_form_card_gate_witness :
    WifiHandler.get_form 0 = none ∧
    WifiHandler.get_form 1 = some (wifi_form_sections, wifi_handler_callbacks) :=
  ⟨(wifi_get_form_card_gate 0).1 (by decide),
   (wifi_get_form_card_gate 1).2 (by decide)⟩

end Foris
